import Mathlib

/-!
Shallow embedding of the OrangeWeb3 engagement and progression engine:
the Express route handlers in `server/routes.ts` together with the
`DatabaseStorage` methods in `server/storage.ts` and the Drizzle table
shapes in `shared/schema.ts`.  Database tables are embedded as Lean
lists of records, serial-id allocation as an explicit `nextId` counter,
and `now`-timestamps as explicit `Nat` parameters.
-/

namespace OrangeWeb3

/-- `users` table row (`shared/schema.ts`): id, username, password,
displayName, bio, avatarUrl, createdAt. -/
structure User where
  id : Nat
  username : String
  password : String
  displayName : Option String
  bio : Option String
  avatarUrl : Option String
  createdAt : Nat
deriving Repr, DecidableEq

/-- Shape of the body returned by `GET /api/users/:id`: a `User` with the
`password` key removed by the rest-spread
`const { password, ...userWithoutPassword } = user`. -/
structure PublicUser where
  id : Nat
  username : String
  displayName : Option String
  bio : Option String
  avatarUrl : Option String
  createdAt : Nat
deriving Repr, DecidableEq

/-- `vibes` table row: a post with author, hashtag array and creation time.
Only the fields the engine reads are embedded. -/
structure Vibe where
  id : Nat
  userId : Nat
  hashtags : List String
  createdAt : Nat
deriving Repr, DecidableEq

/-- `comments` table row. -/
structure CommentRec where
  id : Nat
  vibeId : Nat
  userId : Nat
  content : String
  createdAt : Nat
deriving Repr, DecidableEq

/-- `likes` table row: `isLike = true` for like, `false` for dislike. -/
structure Like where
  id : Nat
  vibeId : Nat
  userId : Nat
  isLike : Bool
  createdAt : Nat
deriving Repr, DecidableEq

/-- `connections` table row: directed request `userId → connectedToId`
with status string `pending` / `accepted` / `rejected`. -/
structure Connection where
  id : Nat
  userId : Nat
  connectedToId : Nat
  status : String
  createdAt : Nat
deriving Repr, DecidableEq

/-- `notifications` table row: `userId` is the recipient, `fromUserId`
the actor. -/
structure Notification where
  id : Nat
  userId : Nat
  type : String
  fromUserId : Nat
  entityId : Option Nat
  content : Option String
  isRead : Bool
  createdAt : Nat
deriving Repr, DecidableEq

/-- `messages` table row. -/
structure Message where
  id : Nat
  senderId : Nat
  receiverId : Nat
  content : String
  isRead : Bool
  createdAt : Nat
deriving Repr, DecidableEq

/-- The social-side database state: one list per table plus the serial-id
allocator shared by all inserts. -/
structure DB where
  users : List User
  vibes : List Vibe
  comments : List CommentRec
  likes : List Like
  connections : List Connection
  notifications : List Notification
  messages : List Message
  nextId : Nat
deriving Repr, DecidableEq

def emptyDB : DB :=
  { users := [], vibes := [], comments := [], likes := [], connections := []
    notifications := [], messages := [], nextId := 1 }

/-- Outcome of a route handler: an HTTP status code with either a JSON
payload or an error message body. -/
inductive ApiResult (α : Type) where
  | ok (code : Nat) (value : α)
  | err (code : Nat) (message : String)
deriving Repr, DecidableEq

/-! ### Ordering helper
`ORDER BY` clauses are embedded as a stable insertion sort parameterised
by a boolean "comes no later than" comparator. -/

def insertSorted {α : Type} (le : α → α → Bool) (x : α) : List α → List α
  | [] => [x]
  | y :: ys => if le x y then x :: y :: ys else y :: insertSorted le x ys

def sortByR {α : Type} (le : α → α → Bool) : List α → List α
  | [] => []
  | x :: xs => insertSorted le x (sortByR le xs)
/-! ### Storage operations (`DatabaseStorage`, server/storage.ts) -/

/-- `DatabaseStorage.getUser`: single-row select by primary key. -/
def getUser (l : List User) (id : Nat) : Option User :=
  l.find? (fun u => u.id == id)

/-- `DatabaseStorage.getVibeById`. -/
def getVibeById (l : List Vibe) (id : Nat) : Option Vibe :=
  l.find? (fun v => v.id == id)

/-- `DatabaseStorage.getLikeByUserAndVibe`: select the row matching both
`userId` and `vibeId`. -/
def getLikeByUserAndVibe (l : List Like) (userId vibeId : Nat) : Option Like :=
  l.find? (fun lk => lk.userId == userId && lk.vibeId == vibeId)

/-- `DatabaseStorage.createOrUpdateLike`: look the (user, vibe) row up;
when present, update its `isLike` in place (matched by row id) and return
the updated row; otherwise insert a fresh row and return it. -/
def createOrUpdateLike (db : DB) (vibeId userId : Nat) (isLike : Bool) (now : Nat) :
    DB × Like :=
  match getLikeByUserAndVibe db.likes userId vibeId with
  | some existing =>
      ({ db with likes := db.likes.map (fun l =>
          if l.id == existing.id then { l with isLike := isLike } else l) },
       { existing with isLike := isLike })
  | none =>
      let nl : Like := { id := db.nextId, vibeId := vibeId, userId := userId
                         isLike := isLike, createdAt := now }
      ({ db with likes := db.likes ++ [nl], nextId := db.nextId + 1 }, nl)

/-- Number of like rows with `isLike = true` for one vibe: the grouped
`count(likes.id)` of the `getTrendingVibes` left join, whose join condition
is `likes.vibeId = vibes.id AND likes.isLike = true`. -/
def likeCount (likes : List Like) (vibeId : Nat) : Nat :=
  (likes.filter (fun l => l.vibeId == vibeId && l.isLike)).length

/-- Comparator of the first `getTrendingVibes` query:
`ORDER BY likes_count DESC`. -/
def rankLe (likes : List Like) (a b : Vibe) : Bool :=
  decide (likeCount likes b.id ≤ likeCount likes a.id)

/-- Comparator of `ORDER BY createdAt DESC` (newest first). -/
def recentLe (a b : Vibe) : Bool :=
  decide (b.createdAt ≤ a.createdAt)

/-- `DatabaseStorage.getTrendingVibes`: first query groups vibes with
their positive-like counts, orders by the count descending and takes
`limit`; the ids so selected feed a second query which returns the
matching vibes ordered by `createdAt` descending. -/
def getTrendingVibes (vibes : List Vibe) (likes : List Like) (limit : Nat) :
    List Vibe :=
  let vibeIds := ((sortByR (rankLe likes) vibes).take limit).map (fun v => v.id)
  if vibeIds.isEmpty then []
  else sortByR recentLe (vibes.filter (fun v => vibeIds.contains v.id))

/-- `DatabaseStorage.getVibesByHashtag`: Postgres array containment
`hashtags @> ARRAY[hashtag]::text[]` — exact, case-sensitive string
membership — ordered by `createdAt` descending. -/
def getVibesByHashtag (vibes : List Vibe) (hashtag : String) : List Vibe :=
  sortByR recentLe (vibes.filter (fun v => v.hashtags.contains hashtag))

/-- `DatabaseStorage.getConnectionByUsers`: select on the ordered pair
`(userId, connectedToId)`. -/
def getConnectionByUsers (l : List Connection) (userId connectedToId : Nat) :
    Option Connection :=
  l.find? (fun c => c.userId == userId && c.connectedToId == connectedToId)

/-- `DatabaseStorage.getConnectionById`. -/
def getConnectionById (l : List Connection) (id : Nat) : Option Connection :=
  l.find? (fun c => c.id == id)

/-! ### Route handlers (server/routes.ts) -/

/-- `GET /api/users/:id`: 404 when absent, otherwise the user with the
`password` key removed by rest-spread. -/
def stripPassword (u : User) : PublicUser :=
  { id := u.id, username := u.username, displayName := u.displayName
    bio := u.bio, avatarUrl := u.avatarUrl, createdAt := u.createdAt }

def getUserRoute (db : DB) (id : Nat) : ApiResult PublicUser :=
  match getUser db.users id with
  | none => .err 404 "User not found"
  | some u => .ok 200 (stripPassword u)

/-- `POST /api/vibes/:vibeId/like`: upsert the reaction, then, when the
vibe exists, its owner differs from the liker and the reaction is a like,
persist a `like` notification for the owner. -/
def likeVibeRoute (db : DB) (authUserId vibeId : Nat) (isLike : Bool) (now : Nat) :
    ApiResult Like × DB :=
  let res := createOrUpdateLike db vibeId authUserId isLike now
  let db1 := res.1
  match getVibeById db1.vibes vibeId with
  | some vibe =>
      if vibe.userId != authUserId && isLike then
        let n : Notification :=
          { id := db1.nextId, userId := vibe.userId, type := "like"
            fromUserId := authUserId, entityId := some vibeId, content := none
            isRead := false, createdAt := now }
        (.ok 201 res.2,
         { db1 with notifications := db1.notifications ++ [n], nextId := db1.nextId + 1 })
      else (.ok 201 res.2, db1)
  | none => (.ok 201 res.2, db1)

/-- `POST /api/vibes/:vibeId/comments`: insert the comment, then, when the
vibe exists and its owner differs from the commenter, persist a `comment`
notification carrying the comment body. -/
def commentVibeRoute (db : DB) (authUserId vibeId : Nat) (content : String) (now : Nat) :
    ApiResult CommentRec × DB :=
  let c : CommentRec := { id := db.nextId, vibeId := vibeId, userId := authUserId
                          content := content, createdAt := now }
  let db1 := { db with comments := db.comments ++ [c], nextId := db.nextId + 1 }
  match getVibeById db1.vibes vibeId with
  | some vibe =>
      if vibe.userId != authUserId then
        let n : Notification :=
          { id := db1.nextId, userId := vibe.userId, type := "comment"
            fromUserId := authUserId, entityId := some vibeId
            content := some content, isRead := false, createdAt := now }
        (.ok 201 c,
         { db1 with notifications := db1.notifications ++ [n], nextId := db1.nextId + 1 })
      else (.ok 201 c, db1)
  | none => (.ok 201 c, db1)

/-- `POST /api/connections`: `insertConnectionSchema` only picks the
fields (no cross-field refinement, in particular no self-connection
check); a 400 when a connection for the ordered pair already exists;
otherwise insert `{status: "pending"}` and persist a
`connection_request` notification addressed to the recipient. -/
def createConnectionRoute (db : DB) (authUserId connectedToId : Nat) (now : Nat) :
    ApiResult Connection × DB :=
  match getConnectionByUsers db.connections authUserId connectedToId with
  | some _ => (.err 400 "Connection already exists", db)
  | none =>
      let conn : Connection :=
        { id := db.nextId, userId := authUserId, connectedToId := connectedToId
          status := "pending", createdAt := now }
      let db1 := { db with connections := db.connections ++ [conn]
                           nextId := db.nextId + 1 }
      let n : Notification :=
        { id := db1.nextId, userId := connectedToId, type := "connection_request"
          fromUserId := authUserId, entityId := some conn.id, content := none
          isRead := false, createdAt := now }
      (.ok 201 conn,
       { db1 with notifications := db1.notifications ++ [n], nextId := db1.nextId + 1 })

/-- `PUT /api/connections/:id`: 400 unless the decision is `accepted` or
`rejected`; 404 when the connection is absent; 403 unless the caller is
the recipient (`connectedToId`); otherwise overwrite the status
unconditionally (there is no check that the current status is `pending`)
and, on `accepted`, persist a `connection_accepted` notification for the
original requester. -/
def respondConnectionRoute (db : DB) (authUserId connectionId : Nat)
    (status : String) (now : Nat) : ApiResult Connection × DB :=
  if !(status == "accepted" || status == "rejected") then
    (.err 400 "Invalid status", db)
  else
    match getConnectionById db.connections connectionId with
    | none => (.err 404 "Connection not found", db)
    | some connection =>
        if connection.connectedToId != authUserId then
          (.err 403 "Not authorized to update this connection", db)
        else
          let db1 := { db with connections := db.connections.map (fun c =>
              if c.id == connectionId then { c with status := status } else c) }
          let updated := { connection with status := status }
          if status == "accepted" then
            let n : Notification :=
              { id := db1.nextId, userId := connection.userId
                type := "connection_accepted", fromUserId := authUserId
                entityId := some connection.id, content := none
                isRead := false, createdAt := now }
            (.ok 200 updated,
             { db1 with notifications := db1.notifications ++ [n]
                        nextId := db1.nextId + 1 })
          else (.ok 200 updated, db1)

/-- `POST /api/messages`: `insertMessageSchema` only picks fields (no
sender ≠ receiver refinement); insert the message, then unconditionally
persist a `message` notification for the receiver with the first 50
characters of the body. -/
def sendMessageRoute (db : DB) (authUserId receiverId : Nat) (content : String)
    (now : Nat) : ApiResult Message × DB :=
  let m : Message := { id := db.nextId, senderId := authUserId
                       receiverId := receiverId, content := content
                       isRead := false, createdAt := now }
  let db1 := { db with messages := db.messages ++ [m], nextId := db.nextId + 1 }
  let n : Notification :=
    { id := db1.nextId, userId := receiverId, type := "message"
      fromUserId := authUserId, entityId := some m.id
      content := some (content.take 50), isRead := false, createdAt := now }
  (.ok 201 m,
   { db1 with notifications := db1.notifications ++ [n], nextId := db1.nextId + 1 })

/-! ### Learning platform (quests, XP) -/

/-- `quests` table row; only the fields the completion flow reads. -/
structure Quest where
  id : Nat
  xpReward : Nat
deriving Repr, DecidableEq

/-- `user_quest_progress` table row. -/
structure UserQuestProgress where
  id : Nat
  userId : Nat
  questId : Nat
  completed : Bool
  completedAt : Option Nat
deriving Repr, DecidableEq

/-- `user_level` table row (one per user). -/
structure UserLevel where
  id : Nat
  userId : Nat
  level : Nat
  xp : Nat
deriving Repr, DecidableEq

/-- Learning-side database state. -/
structure LearnDB where
  quests : List Quest
  questProgress : List UserQuestProgress
  levels : List UserLevel
  nextId : Nat
deriving Repr, DecidableEq

/-- `DatabaseStorage.getQuestById`. -/
def getQuestById (l : List Quest) (id : Nat) : Option Quest :=
  l.find? (fun q => q.id == id)

/-- Modelled from the spec: `IStorage.completeUserQuest` is declared in
`server/storage.ts` but its body is not among the sources. Per the spec:
if no ProgressRecord exists for `(userId, questId)`, create it as
completed with `completedAt = now`; if a record exists and is already
completed, return it unchanged; a not-yet-completed record is marked
completed. (The quest-definition lookup is done separately by the route,
which is in the sources.) -/
def completeUserQuest (db : LearnDB) (userId questId now : Nat) :
    LearnDB × UserQuestProgress :=
  match db.questProgress.find? (fun p => p.userId == userId && p.questId == questId) with
  | some p =>
      if p.completed then (db, p)
      else
        let upd := { p with completed := true, completedAt := some now }
        ({ db with questProgress := db.questProgress.map (fun q =>
            if q.id == p.id then upd else q) }, upd)
  | none =>
      let p : UserQuestProgress :=
        { id := db.nextId, userId := userId, questId := questId
          completed := true, completedAt := some now }
      ({ db with questProgress := db.questProgress ++ [p]
                 nextId := db.nextId + 1 }, p)

/-- Modelled from the spec: the configured xp-threshold table is not among
the sources; modelled as one level per 100 xp, which is monotone in xp as
the spec requires. -/
def levelForXp (xp : Nat) : Nat := xp / 100 + 1

/-- Modelled from the spec: `IStorage.addUserXp` is declared in
`server/storage.ts` but its body is not among the sources. Per the spec:
add the amount to `LevelState.xp`, creating the row lazily with level 1
and xp 0 when absent, then recompute the level from the threshold
table. -/
def addUserXp (db : LearnDB) (userId amount : Nat) : LearnDB :=
  match db.levels.find? (fun l => l.userId == userId) with
  | some l =>
      let xpNew := l.xp + amount
      { db with levels := db.levels.map (fun x =>
          if x.id == l.id then { x with xp := xpNew, level := levelForXp xpNew } else x) }
  | none =>
      let nl : UserLevel :=
        { id := db.nextId, userId := userId
          level := levelForXp amount, xp := amount }
      { db with levels := db.levels ++ [nl], nextId := db.nextId + 1 }

/-- `POST /api/learning/quests/:questId/complete` (server/routes.ts):
complete the quest progress, then fetch the quest and, whenever it exists
and `quest.xpReward` is truthy (non-zero), award the XP — the route does
not ask whether the progress record was already completed. -/
def completeQuestRoute (db : LearnDB) (userId questId now : Nat) :
    LearnDB × UserQuestProgress :=
  let res := completeUserQuest db userId questId now
  let db2 :=
    match getQuestById res.1.quests questId with
    | some q => if q.xpReward != 0 then addUserXp res.1 userId q.xpReward else res.1
    | none => res.1
  (db2, res.2)

/-- Current xp of one user, read from the `user_level` table. -/
def userXp (db : LearnDB) (userId : Nat) : Option Nat :=
  (db.levels.find? (fun l => l.userId == userId)).map (fun l => l.xp)

/-! ### Derived observations and concrete fixtures -/

/-- Number of like rows stored for the pair (userId, vibeId). -/
def pairCount (l : List Like) (userId vibeId : Nat) : Nat :=
  (l.filter (fun lk => lk.userId == userId && lk.vibeId == vibeId)).length

/-- Number of connection rows stored for the ordered pair. -/
def pairConnCount (l : List Connection) (userId connectedToId : Nat) : Nat :=
  (l.filter (fun c => c.userId == userId && c.connectedToId == connectedToId)).length

/-- One `setReaction` call: the body fields of `POST /api/vibes/:vibeId/like`
plus the call's timestamp. -/
structure ReactionOp where
  vibeId : Nat
  userId : Nat
  isLike : Bool
  now : Nat
deriving Repr, DecidableEq

/-- Run a sequence of `createOrUpdateLike` upserts against the store. -/
def applyReactionOps (db : DB) (ops : List ReactionOp) : DB :=
  ops.foldl (fun d op => (createOrUpdateLike d op.vibeId op.userId op.isLike op.now).1) db

/-- The id selection of the first `getTrendingVibes` query. -/
def topIds (vibes : List Vibe) (likes : List Like) (limit : Nat) : List Nat :=
  ((sortByR (rankLe likes) vibes).take limit).map (fun v => v.id)

/-- Content A of the trending example: 3 likes, created at t = 10. -/
def vibeA : Vibe := { id := 1, userId := 100, hashtags := [], createdAt := 10 }

/-- Content B of the trending example: 3 likes, created at t = 5. -/
def vibeB : Vibe := { id := 2, userId := 100, hashtags := [], createdAt := 5 }

/-- Content C of the trending example: 2 likes, created at t = 20. -/
def vibeC : Vibe := { id := 3, userId := 100, hashtags := [], createdAt := 20 }

/-- Likes of the trending example: 3 for A, 3 for B, 2 for C. -/
def exampleLikes : List Like :=
  [ { id := 1, vibeId := 1, userId := 11, isLike := true, createdAt := 0 }
  , { id := 2, vibeId := 1, userId := 12, isLike := true, createdAt := 0 }
  , { id := 3, vibeId := 1, userId := 13, isLike := true, createdAt := 0 }
  , { id := 4, vibeId := 2, userId := 11, isLike := true, createdAt := 0 }
  , { id := 5, vibeId := 2, userId := 12, isLike := true, createdAt := 0 }
  , { id := 6, vibeId := 2, userId := 13, isLike := true, createdAt := 0 }
  , { id := 7, vibeId := 3, userId := 11, isLike := true, createdAt := 0 }
  , { id := 8, vibeId := 3, userId := 12, isLike := true, createdAt := 0 } ]

/-- Learning store for the quest-idempotency scenario: one quest (id 7,
xpReward 50), no progress, no level rows. -/
def c1DB : LearnDB :=
  { quests := [{ id := 7, xpReward := 50 }], questProgress := [], levels := []
    nextId := 1 }

/-- The three-call reaction sequence of the idempotency example:
like, dislike, like by user 1 on vibe 2. -/
def c4Ops : List ReactionOp :=
  [ { vibeId := 2, userId := 1, isLike := true, now := 0 }
  , { vibeId := 2, userId := 1, isLike := false, now := 1 }
  , { vibeId := 2, userId := 1, isLike := true, now := 2 } ]

def c4Final : DB := applyReactionOps emptyDB c4Ops

/-- Store holding one already-accepted connection 1 → 2. -/
def c5DB : DB :=
  { emptyDB with
    connections := [{ id := 1, userId := 1, connectedToId := 2
                      status := "accepted", createdAt := 0 }]
    nextId := 2 }

/-- Store holding one pending connection 1 → 2. -/
def c8DB : DB :=
  { emptyDB with
    connections := [{ id := 1, userId := 1, connectedToId := 2
                      status := "pending", createdAt := 0 }]
    nextId := 2 }

/-- Store holding one vibe (id 1) owned by user 2. -/
def c3DB : DB :=
  { emptyDB with
    vibes := [{ id := 1, userId := 2, hashtags := [], createdAt := 0 }]
    nextId := 2 }

/-- A vibe tagged "Web3" (upper-case W). -/
def vibeW : Vibe := { id := 9, userId := 100, hashtags := ["Web3"], createdAt := 4 }

/-- A stored user with a password. -/
def demoUser : User :=
  { id := 1, username := "alice", password := "hunter2", displayName := none
    bio := none, avatarUrl := none, createdAt := 0 }

/-- Store holding `demoUser`. -/
def userDB : DB := { emptyDB with users := [demoUser], nextId := 2 }


/-! ## Theorems -/

/-! ### Sorting lemmas -/


theorem insertSorted_cons {α : Type} (le : α → α → Bool) (x y : α) (ys : List α) :
    insertSorted le x (y :: ys) =
      if le x y then x :: y :: ys else y :: insertSorted le x ys := rfl

theorem mem_insertSorted {α : Type} (le : α → α → Bool) (x a : α) (l : List α) :
    a ∈ insertSorted le x l ↔ a = x ∨ a ∈ l := by
  induction l with
  | nil => simp [insertSorted]
  | cons y ys ih =>
    rw [insertSorted_cons]
    cases h : le x y
    · show a ∈ y :: insertSorted le x ys ↔ a = x ∨ a ∈ y :: ys
      simp only [List.mem_cons, ih]
      tauto
    · show a ∈ x :: y :: ys ↔ a = x ∨ a ∈ y :: ys
      simp only [List.mem_cons]

theorem mem_sortByR {α : Type} (le : α → α → Bool) (a : α) (l : List α) :
    a ∈ sortByR le l ↔ a ∈ l := by
  induction l with
  | nil => simp [sortByR]
  | cons x xs ih => simp [sortByR, mem_insertSorted, ih]

theorem pairwise_insertSorted {α : Type} (le : α → α → Bool) (x : α) (l : List α)
    (htot : ∀ a b, le a b = true ∨ le b a = true)
    (htrans : ∀ a b c, le a b = true → le b c = true → le a c = true)
    (hl : l.Pairwise (fun a b => le a b = true)) :
    (insertSorted le x l).Pairwise (fun a b => le a b = true) := by
  induction l with
  | nil => simp [insertSorted]
  | cons y ys ih =>
    rcases List.pairwise_cons.mp hl with ⟨hy, hys⟩
    rw [insertSorted_cons]
    cases h : le x y
    · show (y :: insertSorted le x ys).Pairwise (fun a b => le a b = true)
      refine List.pairwise_cons.mpr ⟨?_, ih hys⟩
      intro b hb
      rcases (mem_insertSorted le x b ys).mp hb with hb | hb
      · rw [hb]
        rcases htot x y with hxy | hyx
        · exact absurd hxy (by simp [h])
        · exact hyx
      · exact hy b hb
    · show (x :: y :: ys).Pairwise (fun a b => le a b = true)
      refine List.pairwise_cons.mpr ⟨?_, hl⟩
      intro b hb
      rcases List.mem_cons.mp hb with hb | hb
      · subst hb; exact h
      · exact htrans x y b h (hy b hb)

theorem pairwise_sortByR {α : Type} (le : α → α → Bool) (l : List α)
    (htot : ∀ a b, le a b = true ∨ le b a = true)
    (htrans : ∀ a b c, le a b = true → le b c = true → le a c = true) :
    (sortByR le l).Pairwise (fun a b => le a b = true) := by
  induction l with
  | nil => simp [sortByR]
  | cons x xs ih => exact pairwise_insertSorted le x _ htot htrans ih

theorem pairwise_take_drop {α : Type} {R : α → α → Prop} {l : List α}
    (h : l.Pairwise R) (n : Nat) :
    ∀ a ∈ l.take n, ∀ b ∈ l.drop n, R a b := by
  have hsplit : l = l.take n ++ l.drop n := (List.take_append_drop n l).symm
  rw [hsplit] at h
  exact (List.pairwise_append.mp h).2.2

/-! ### Comparator facts -/

theorem recentLe_total : ∀ a b : Vibe, recentLe a b = true ∨ recentLe b a = true := by
  intro a b
  simp only [recentLe, decide_eq_true_eq]
  exact Nat.le_total b.createdAt a.createdAt

theorem recentLe_trans :
    ∀ a b c : Vibe, recentLe a b = true → recentLe b c = true → recentLe a c = true := by
  intro a b c
  simp only [recentLe, decide_eq_true_eq]
  exact fun h1 h2 => Nat.le_trans h2 h1

theorem rankLe_total (likes : List Like) :
    ∀ a b : Vibe, rankLe likes a b = true ∨ rankLe likes b a = true := by
  intro a b
  simp only [rankLe, decide_eq_true_eq]
  exact Nat.le_total (likeCount likes b.id) (likeCount likes a.id)

theorem rankLe_trans (likes : List Like) :
    ∀ a b c : Vibe, rankLe likes a b = true → rankLe likes b c = true →
      rankLe likes a c = true := by
  intro a b c
  simp only [rankLe, decide_eq_true_eq]
  exact fun h1 h2 => Nat.le_trans h2 h1

/-! ### Reaction-upsert lemmas -/

theorem length_filter_map_eq {α : Type} (f : α → α) (p : α → Bool)
    (hp : ∀ x, p (f x) = p x) (l : List α) :
    ((l.map f).filter p).length = (l.filter p).length := by
  induction l with
  | nil => rfl
  | cons hd tl ih =>
    simp only [List.map_cons, List.filter_cons, hp]
    cases hpd : p hd
    · simpa using ih
    · simpa using ih

/-- Updating `isLike` in place never changes how many rows a
(userId, vibeId) pair owns. -/
theorem pairCount_update (l : List Like) (eid : Nat) (b : Bool) (x y : Nat) :
    pairCount (l.map (fun lk => if lk.id == eid then { lk with isLike := b } else lk)) x y =
      pairCount l x y := by
  simp only [pairCount]
  refine length_filter_map_eq _ _ ?_ l
  intro lk
  cases hid : (lk.id == eid) <;> rfl

theorem pairCount_append_single (l : List Like) (nl : Like) (x y : Nat) :
    pairCount (l ++ [nl]) x y =
      pairCount l x y + (if nl.userId == x && nl.vibeId == y then 1 else 0) := by
  simp only [pairCount, List.filter_append]
  cases hp : (nl.userId == x && nl.vibeId == y) <;>
    simp [List.filter_cons, hp]

theorem createOrUpdateLike_likes_none (db : DB) (v u0 : Nat) (b : Bool) (t : Nat)
    (hfind : getLikeByUserAndVibe db.likes u0 v = none) :
    (createOrUpdateLike db v u0 b t).1.likes = db.likes ++
      [{ id := db.nextId, vibeId := v, userId := u0, isLike := b, createdAt := t }] := by
  unfold createOrUpdateLike
  rw [hfind]

theorem createOrUpdateLike_likes_some (db : DB) (v u0 : Nat) (b : Bool) (t : Nat)
    (e : Like) (hfind : getLikeByUserAndVibe db.likes u0 v = some e) :
    (createOrUpdateLike db v u0 b t).1.likes =
      db.likes.map (fun lk => if lk.id == e.id then { lk with isLike := b } else lk) := by
  unfold createOrUpdateLike
  rw [hfind]

/-- One upsert preserves the at-most-one-row-per-pair invariant. -/
theorem pairCount_upsert_le_one (db : DB) (v u0 : Nat) (b : Bool) (t : Nat)
    (h : ∀ x y, pairCount db.likes x y ≤ 1) (x y : Nat) :
    pairCount (createOrUpdateLike db v u0 b t).1.likes x y ≤ 1 := by
  cases hfind : getLikeByUserAndVibe db.likes u0 v with
  | some e =>
      rw [createOrUpdateLike_likes_some db v u0 b t e hfind, pairCount_update]
      exact h x y
  | none =>
      rw [createOrUpdateLike_likes_none db v u0 b t hfind, pairCount_append_single]
      cases hp : ((u0 == x) && (v == y))
      · simpa using h x y
      · have hxy : u0 = x ∧ v = y := by simpa using hp
        obtain ⟨hx, hy⟩ := hxy
        subst hx; subst hy
        have h0 : pairCount db.likes u0 v = 0 := by
          have hnone := List.find?_eq_none.mp hfind
          simp only [pairCount, List.length_eq_zero, List.filter_eq_nil_iff]
          exact fun a ha => by simpa using hnone a ha
        rw [h0]
        simp

theorem applyReactionOps_cons (db : DB) (op : ReactionOp) (ops : List ReactionOp) :
    applyReactionOps db (op :: ops) =
      applyReactionOps (createOrUpdateLike db op.vibeId op.userId op.isLike op.now).1 ops :=
  rfl

/-- Any sequence of upserts preserves the at-most-one-row invariant. -/
theorem pairCount_apply_le_one (db : DB) (ops : List ReactionOp)
    (h : ∀ x y, pairCount db.likes x y ≤ 1) :
    ∀ x y, pairCount (applyReactionOps db ops).likes x y ≤ 1 := by
  induction ops generalizing db with
  | nil => exact h
  | cons op rest ih =>
      rw [applyReactionOps_cons]
      exact ih _ (fun x y => pairCount_upsert_le_one db _ _ _ _ h x y)

/-! ### Trending lemmas -/

/-- Membership in the trending result: a stored vibe whose id was
selected by the first query. -/
theorem mem_getTrendingVibes (vibes : List Vibe) (likes : List Like) (n : Nat)
    (v : Vibe) :
    v ∈ getTrendingVibes vibes likes n ↔ v ∈ vibes ∧ v.id ∈ topIds vibes likes n := by
  simp only [getTrendingVibes]
  cases hemp : (((sortByR (rankLe likes) vibes).take n).map (fun v => v.id)).isEmpty
  · show v ∈ sortByR recentLe (vibes.filter (fun x =>
        (((sortByR (rankLe likes) vibes).take n).map (fun v => v.id)).contains x.id)) ↔ _
    rw [mem_sortByR, List.mem_filter]
    unfold topIds
    simp
  · show v ∈ ([] : List Vibe) ↔ _
    have h0 : ((sortByR (rankLe likes) vibes).take n).map (fun v => v.id) = [] := by
      simpa using hemp
    unfold topIds
    simp [h0]

/-- The trending result is ordered newest first. -/
theorem trending_pairwise (vibes : List Vibe) (likes : List Like) (n : Nat) :
    (getTrendingVibes vibes likes n).Pairwise
      (fun a b => b.createdAt ≤ a.createdAt) := by
  simp only [getTrendingVibes]
  cases hemp : (((sortByR (rankLe likes) vibes).take n).map (fun v => v.id)).isEmpty
  · show (sortByR recentLe _).Pairwise _
    exact (pairwise_sortByR recentLe _ recentLe_total recentLe_trans).imp
      (fun hab => by simpa [recentLe] using hab)
  · show ([] : List Vibe).Pairwise _
    simp

/-- Every vibe the trending result leaves out has a like count no larger
than that of any vibe it returns (assuming distinct vibe ids). -/
theorem trending_top_counts (vibes : List Vibe) (likes : List Like) (n : Nat)
    (hnodup : (vibes.map (fun v => v.id)).Nodup)
    (v : Vibe) (hv : v ∈ getTrendingVibes vibes likes n)
    (w : Vibe) (hw : w ∈ vibes) (hnw : w ∉ getTrendingVibes vibes likes n) :
    likeCount likes w.id ≤ likeCount likes v.id := by
  obtain ⟨hvv, hvid⟩ := (mem_getTrendingVibes vibes likes n v).mp hv
  unfold topIds at hvid
  obtain ⟨v', hvmem, hvid'⟩ := List.mem_map.mp hvid
  have hvsorted : v' ∈ sortByR (rankLe likes) vibes := List.mem_of_mem_take hvmem
  have hvvibes : v' ∈ vibes := (mem_sortByR _ _ _).mp hvsorted
  have hveq : v' = v := List.inj_on_of_nodup_map hnodup hvvibes hvv hvid'
  have hwid : w.id ∉ topIds vibes likes n :=
    fun hcontra => hnw ((mem_getTrendingVibes vibes likes n w).mpr ⟨hw, hcontra⟩)
  have hwsorted : w ∈ sortByR (rankLe likes) vibes := (mem_sortByR _ _ _).mpr hw
  have hwnottake : w ∉ (sortByR (rankLe likes) vibes).take n := by
    intro hmem
    refine hwid ?_
    unfold topIds
    exact List.mem_map.mpr ⟨w, hmem, rfl⟩
  have hwdrop : w ∈ (sortByR (rankLe likes) vibes).drop n := by
    have hsplit : w ∈ (sortByR (rankLe likes) vibes).take n ++
        (sortByR (rankLe likes) vibes).drop n := by
      rw [List.take_append_drop]
      exact hwsorted
    rcases List.mem_append.mp hsplit with h | h
    · exact absurd h hwnottake
    · exact h
  have hpw := pairwise_sortByR (rankLe likes) vibes (rankLe_total likes)
    (rankLe_trans likes)
  have hrel := pairwise_take_drop hpw n v' hvmem w hwdrop
  rw [hveq] at hrel
  simpa [rankLe, decide_eq_true_eq] using hrel

/-! ### Claim C1 -/

/-- Claim C1 (code bug, evaluated at the failing input): with quest 7
carrying xpReward 50 and user 1 starting from no progress and no level
row, the first completion call leaves user 1 at 50 xp, but the second
call — although it returns the progress record of the first call
unchanged — raises the xp to 100: the route awards `q.xpReward` again on
every call instead of exactly once. -/
theorem quest_double_complete_double_award :
    userXp (completeQuestRoute c1DB 1 7 0).1 1 = some 50 ∧
    userXp (completeQuestRoute (completeQuestRoute c1DB 1 7 0).1 1 7 1).1 1 = some 100 ∧
    (completeQuestRoute (completeQuestRoute c1DB 1 7 0).1 1 7 1).2 =
      (completeQuestRoute c1DB 1 7 0).2 ∧
    (getQuestById c1DB.quests 7).map Quest.xpReward = some 50 := by decide

/-! ### Claim C2 -/

/-- Claim C2 (counterexample): for content A (3 likes, t = 10),
B (3 likes, t = 5), C (2 likes, t = 20), `getTrendingVibes` with limit 3
returns [C, A, B] — the second query re-orders the selected ids by
`createdAt` descending — not the claimed [A, B, C]. -/
theorem trending_example_not_rank_ordered :
    getTrendingVibes [vibeA, vibeB, vibeC] exampleLikes 3 = [vibeC, vibeA, vibeB] ∧
    [vibeC, vibeA, vibeB] ≠ ([vibeA, vibeB, vibeC] : List Vibe) ∧
    likeCount exampleLikes vibeA.id = 3 ∧ likeCount exampleLikes vibeB.id = 3 ∧
    likeCount exampleLikes vibeC.id = 2 ∧
    vibeA.createdAt = 10 ∧ vibeB.createdAt = 5 ∧ vibeC.createdAt = 20 := by decide

/-- Claim C2 (amended): for stores with distinct vibe ids, the trending
result (1) is ordered by `createdAt` descending, (2) only contains
stored vibes, (3) contains only vibes whose positive-like count is at
least that of every stored vibe left out — the top-`limit` selection of
the first query — and (4) on the A/B/C example equals [C, A, B]. -/
theorem trending_sorted_recent_and_top_counts (vibes : List Vibe)
    (likes : List Like) (n : Nat)
    (hnodup : (vibes.map (fun v => v.id)).Nodup) :
    ((getTrendingVibes vibes likes n).Pairwise
        (fun a b => b.createdAt ≤ a.createdAt)) ∧
    (∀ v ∈ getTrendingVibes vibes likes n, v ∈ vibes) ∧
    (∀ v ∈ getTrendingVibes vibes likes n, ∀ w ∈ vibes,
        w ∉ getTrendingVibes vibes likes n →
        likeCount likes w.id ≤ likeCount likes v.id) ∧
    getTrendingVibes [vibeA, vibeB, vibeC] exampleLikes 3 = [vibeC, vibeA, vibeB] := by
  refine ⟨trending_pairwise vibes likes n, ?_, ?_, by decide⟩
  · exact fun v hv => ((mem_getTrendingVibes vibes likes n v).mp hv).1
  · exact fun v hv w hw hnw =>
      trending_top_counts vibes likes n hnodup v hv w hw hnw

/-- Witness for `trending_sorted_recent_and_top_counts` at the concrete
A/B/C example. -/
theorem trending_sorted_recent_and_top_counts_witness :
    getTrendingVibes [vibeA, vibeB, vibeC] exampleLikes 3 = [vibeC, vibeA, vibeB] :=
  (trending_sorted_recent_and_top_counts [vibeA, vibeB, vibeC] exampleLikes 3
    (by decide)).2.2.2

/-! ### Claim C3 -/

/-- Claim C3 (counterexample): sending a message whose receiver equals
its sender persists a notification whose recipient equals its actor —
the message path has no self-notification guard. -/
theorem self_message_persists_self_notification :
    ((sendMessageRoute emptyDB 1 1 "hello" 0).2.notifications.map
        (fun n => (n.userId, n.fromUserId))) = [(1, 1)] ∧
    ((sendMessageRoute emptyDB 1 1 "hello" 0).2.notifications.map
        Notification.type) = ["message"] := by decide

/-- The reaction upsert never touches the notifications table. -/
theorem createOrUpdateLike_notifications (db : DB) (v u0 : Nat) (b : Bool) (t : Nat) :
    (createOrUpdateLike db v u0 b t).1.notifications = db.notifications := by
  unfold createOrUpdateLike
  cases hfind : getLikeByUserAndVibe db.likes u0 v <;> rfl

/-- Claim C3 (amended): when the store holds no self-notification, the
like and comment routes preserve that — their notification inserts are
guarded by actor ≠ content owner. (The message and connection paths are
not so guarded; see the counterexample.) -/
theorem like_comment_notifications_never_self (db : DB) (u v : Nat) (b : Bool)
    (s : String) (now : Nat)
    (h : ∀ n ∈ db.notifications, n.fromUserId ≠ n.userId) :
    (∀ n ∈ (likeVibeRoute db u v b now).2.notifications, n.fromUserId ≠ n.userId) ∧
    (∀ n ∈ (commentVibeRoute db u v s now).2.notifications, n.fromUserId ≠ n.userId) := by
  constructor
  · intro n hn
    cases hvibe : getVibeById (createOrUpdateLike db v u b now).1.vibes v with
    | none =>
        simp only [likeVibeRoute, hvibe] at hn
        rw [createOrUpdateLike_notifications] at hn
        exact h n hn
    | some vibe =>
        cases hg : (vibe.userId != u && b)
        · simp only [likeVibeRoute, hvibe, hg, Bool.false_eq_true, if_false] at hn
          rw [createOrUpdateLike_notifications] at hn
          exact h n hn
        · simp only [likeVibeRoute, hvibe, hg, if_true] at hn
          rw [createOrUpdateLike_notifications] at hn
          rcases List.mem_append.mp hn with hn | hn
          · exact h n hn
          · have hne : vibe.userId ≠ u := by
              have := (Bool.and_eq_true _ _).mp hg
              simpa using this.1
            rcases List.mem_singleton.mp hn with rfl
            simpa using fun hcontra => hne hcontra.symm
  · intro n hn
    cases hvibe : getVibeById db.vibes v with
    | none =>
        simp only [commentVibeRoute, hvibe] at hn
        exact h n hn
    | some vibe =>
        cases hg : (vibe.userId != u)
        · simp only [commentVibeRoute, hvibe, hg, Bool.false_eq_true, if_false] at hn
          exact h n hn
        · simp only [commentVibeRoute, hvibe, hg, if_true] at hn
          rcases List.mem_append.mp hn with hn | hn
          · exact h n hn
          · have hne : vibe.userId ≠ u := by simpa using hg
            rcases List.mem_singleton.mp hn with rfl
            simpa using fun hcontra => hne hcontra.symm

/-- Witness for `like_comment_notifications_never_self`: user 1 likes
vibe 1 owned by user 2; the persisted like notification satisfies
actor ≠ recipient. -/
theorem like_comment_notifications_never_self_witness :
    ({ id := 3, userId := 2, type := "like", fromUserId := 1, entityId := some 1
       content := none, isRead := false, createdAt := 5 } : Notification).fromUserId ≠
    ({ id := 3, userId := 2, type := "like", fromUserId := 1, entityId := some 1
       content := none, isRead := false, createdAt := 5 } : Notification).userId :=
  (like_comment_notifications_never_self c3DB 1 1 true "hi" 5
    (fun n hn => absurd hn (by simp [c3DB, emptyDB]))).1
    { id := 3, userId := 2, type := "like", fromUserId := 1, entityId := some 1
      content := none, isRead := false, createdAt := 5 } (by decide)

/-! ### Claim C4 -/

/-- Claim C4: when every (userId, vibeId) pair owns at most one like
row, any sequence of `createOrUpdateLike` upserts keeps it that way;
and the concrete sequence setReaction(u=1, c=2, true), (false), (true)
from the empty store leaves exactly one row for the pair, with
isLike = true. -/
theorem reaction_upsert_at_most_one_row (db : DB) (ops : List ReactionOp)
    (h : ∀ x y, pairCount db.likes x y ≤ 1) :
    (∀ x y, pairCount (applyReactionOps db ops).likes x y ≤ 1) ∧
    c4Final.likes =
      [{ id := 1, vibeId := 2, userId := 1, isLike := true, createdAt := 0 }] ∧
    pairCount c4Final.likes 1 2 = 1 ∧
    (getLikeByUserAndVibe c4Final.likes 1 2).map Like.isLike = some true :=
  ⟨pairCount_apply_le_one db ops h, by decide, by decide, by decide⟩

/-- Witness for `reaction_upsert_at_most_one_row` at the empty store
and the like/dislike/like sequence. -/
theorem reaction_upsert_at_most_one_row_witness :
    pairCount (applyReactionOps emptyDB c4Ops).likes 1 2 ≤ 1 ∧
    (getLikeByUserAndVibe c4Final.likes 1 2).map Like.isLike = some true :=
  ⟨(reaction_upsert_at_most_one_row emptyDB c4Ops (fun x y => Nat.zero_le 1)).1 1 2,
   (reaction_upsert_at_most_one_row emptyDB c4Ops (fun x y => Nat.zero_le 1)).2.2.2⟩

/-! ### Claim C5 -/

/-- Claim C5 (counterexample): on a connection whose status is already
"accepted", the recipient's respond call with decision "rejected"
succeeds with 200 and overwrites the stored status — no ConflictError,
no terminal state. -/
theorem respond_accepted_connection_succeeds :
    c5DB.connections.map Connection.status = ["accepted"] ∧
    (respondConnectionRoute c5DB 2 1 "rejected" 5).1 =
      .ok 200 { id := 1, userId := 1, connectedToId := 2
                status := "rejected", createdAt := 0 } ∧
    (respondConnectionRoute c5DB 2 1 "rejected" 5).2.connections.map
      Connection.status = ["rejected"] := by decide

/-- Claim C5 (amended): the respond route performs no pending check —
whenever the connection exists and the caller is its recipient, a valid
decision succeeds with 200 and overwrites the stored status with the
decision, whatever the previous status was. -/
theorem respond_overwrites_any_status (db : DB) (uid cid now : Nat)
    (s : String) (c : Connection)
    (hs : s = "accepted" ∨ s = "rejected")
    (hc : getConnectionById db.connections cid = some c)
    (hauth : c.connectedToId = uid) :
    (respondConnectionRoute db uid cid s now).1 = .ok 200 { c with status := s } ∧
    (respondConnectionRoute db uid cid s now).2.connections =
      db.connections.map (fun x => if x.id == cid then { x with status := s } else x) := by
  have hvalid : (s == "accepted" || s == "rejected") = true := by
    rcases hs with h | h <;> simp [h]
  have hne : (c.connectedToId != uid) = false := by simp [hauth]
  unfold respondConnectionRoute
  rw [hvalid, hc]
  cases hacc : (s == "accepted") <;> simp [hne, hacc]

/-- Witness for `respond_overwrites_any_status`: the recipient rejects an
already-accepted connection. -/
theorem respond_overwrites_any_status_witness :
    (respondConnectionRoute c5DB 2 1 "rejected" 5).1 =
      .ok 200 { id := 1, userId := 1, connectedToId := 2
                status := "rejected", createdAt := 0 } :=
  (respond_overwrites_any_status c5DB 2 1 5 "rejected"
    { id := 1, userId := 1, connectedToId := 2, status := "accepted", createdAt := 0 }
    (Or.inr rfl) (by decide) rfl).1

/-! ### Claim C6 -/

/-- Claim C6 (counterexample): a connection request whose requester
equals its recipient is accepted — no ValidationError — and a Connection
row is created (with status pending). -/
theorem self_connection_request_succeeds :
    (createConnectionRoute emptyDB 1 1 0).1 =
      .ok 201 { id := 1, userId := 1, connectedToId := 1
                status := "pending", createdAt := 0 } ∧
    (createConnectionRoute emptyDB 1 1 0).2.connections.length = 1 := by decide

/-- Claim C6 (amended): when no connection for the ordered pair (u, u)
exists, a self-request succeeds with 201 and appends a pending
Connection row whose requester equals its recipient; there is no
self-connection ValidationError anywhere on the path. -/
theorem self_connection_request_creates_pending (db : DB) (u now : Nat)
    (h : getConnectionByUsers db.connections u u = none) :
    (createConnectionRoute db u u now).1 =
      .ok 201 { id := db.nextId, userId := u, connectedToId := u
                status := "pending", createdAt := now } ∧
    (createConnectionRoute db u u now).2.connections =
      db.connections ++ [{ id := db.nextId, userId := u, connectedToId := u
                           status := "pending", createdAt := now }] := by
  unfold createConnectionRoute
  rw [h]
  exact ⟨rfl, rfl⟩

/-- Witness for `self_connection_request_creates_pending` at the empty
store and u = 1. -/
theorem self_connection_request_creates_pending_witness :
    (createConnectionRoute emptyDB 1 1 0).1 =
      .ok 201 { id := 1, userId := 1, connectedToId := 1
                status := "pending", createdAt := 0 } :=
  (self_connection_request_creates_pending emptyDB 1 0 (by decide)).1

/-! ### Claim C7 -/

/-- Claim C7: when exactly one Connection row exists for the ordered
pair (a, b) of distinct users, a second request for the same ordered
pair fails with 400 "Connection already exists", the store is unchanged,
and exactly one row for the pair remains. -/
theorem duplicate_connection_request_conflict (db : DB) (a b now : Nat)
    (hab : a ≠ b) (h1 : pairConnCount db.connections a b = 1) :
    createConnectionRoute db a b now = (.err 400 "Connection already exists", db) ∧
    pairConnCount (createConnectionRoute db a b now).2.connections a b = 1 := by
  simp only [pairConnCount] at h1
  have hpos : 0 <
      (db.connections.filter (fun c => c.userId == a && c.connectedToId == b)).length := by
    omega
  obtain ⟨c, hcmem⟩ := List.exists_mem_of_length_pos hpos
  rw [List.mem_filter] at hcmem
  obtain ⟨c', hc'⟩ : ∃ c', getConnectionByUsers db.connections a b = some c' := by
    rw [getConnectionByUsers]
    exact Option.isSome_iff_exists.mp (List.find?_isSome.mpr ⟨c, hcmem.1, hcmem.2⟩)
  have heq : createConnectionRoute db a b now =
      (.err 400 "Connection already exists", db) := by
    unfold createConnectionRoute
    rw [hc']
  refine ⟨heq, ?_⟩
  rw [heq]
  simp only [pairConnCount]
  exact h1

/-- Witness for `duplicate_connection_request_conflict`: store already
holding the pending connection 1 → 2, second request 1 → 2. -/
theorem duplicate_connection_request_conflict_witness :
    createConnectionRoute c8DB 1 2 9 = (.err 400 "Connection already exists", c8DB) :=
  (duplicate_connection_request_conflict c8DB 1 2 9 (by decide) (by decide)).1

/-! ### Claim C8 -/

/-- Claim C8: a respond call with a valid decision on an existing
pending connection by any caller other than the recipient fails with
403 and leaves the store — in particular the pending status —
unchanged. -/
theorem respond_by_non_recipient_forbidden (db : DB) (uid cid now : Nat)
    (s : String) (c : Connection)
    (hs : s = "accepted" ∨ s = "rejected")
    (hc : getConnectionById db.connections cid = some c)
    (hpend : c.status = "pending")
    (hauth : c.connectedToId ≠ uid) :
    respondConnectionRoute db uid cid s now =
      (.err 403 "Not authorized to update this connection", db) := by
  have hvalid : (s == "accepted" || s == "rejected") = true := by
    rcases hs with h | h <;> simp [h]
  have hne : (c.connectedToId != uid) = true := by simp [hauth]
  unfold respondConnectionRoute
  rw [hvalid, hc]
  simp [hne]

/-- Witness for `respond_by_non_recipient_forbidden`: user 3 (neither
party) tries to accept the pending connection 1 → 2. -/
theorem respond_by_non_recipient_forbidden_witness :
    respondConnectionRoute c8DB 3 1 "accepted" 9 =
      (.err 403 "Not authorized to update this connection", c8DB) :=
  respond_by_non_recipient_forbidden c8DB 3 1 9 "accepted"
    { id := 1, userId := 1, connectedToId := 2, status := "pending", createdAt := 0 }
    (Or.inl rfl) (by decide) rfl (by decide)

/-! ### Claim C9 -/

/-- Claim C9 (counterexample): a vibe tagged "Web3" is not returned for
the query tag "web3", although the two differ only in letter case — the
containment test is exact and case-sensitive. -/
theorem hashtag_query_case_sensitive_cex :
    getVibesByHashtag [vibeW] "web3" = [] ∧
    vibeW.hashtags = ["Web3"] ∧
    "Web3".data.map Char.toLower = "web3".data.map Char.toLower ∧
    "Web3" ≠ "web3" := by decide

/-- Claim C9 (amended): `getVibesByHashtag t` returns exactly the vibes
whose tag list contains `t` under exact (case-sensitive) string
equality, ordered newest first by `createdAt`. -/
theorem hashtag_query_exact_membership (vibes : List Vibe) (t : String) :
    ((getVibesByHashtag vibes t).Pairwise (fun a b => b.createdAt ≤ a.createdAt)) ∧
    (∀ v, v ∈ getVibesByHashtag vibes t ↔ v ∈ vibes ∧ t ∈ v.hashtags) := by
  constructor
  · have hp := pairwise_sortByR recentLe
      (vibes.filter (fun v => v.hashtags.contains t)) recentLe_total recentLe_trans
    unfold getVibesByHashtag
    exact hp.imp (fun hab => by simpa [recentLe] using hab)
  · intro v
    unfold getVibesByHashtag
    rw [mem_sortByR, List.mem_filter]
    simp

/-! ### Claim C10 -/

/-- Claim C10: the get-user-by-id response is the stored user with the
password projected away; every other field is returned unchanged, and
the response is unchanged under any change of the stored password. -/
theorem get_user_route_strips_password (db : DB) (i : Nat) (u : User)
    (h : getUser db.users i = some u) :
    getUserRoute db i = .ok 200 (stripPassword u) ∧
    (∀ p, stripPassword { u with password := p } = stripPassword u) ∧
    (stripPassword u).id = u.id ∧ (stripPassword u).username = u.username ∧
    (stripPassword u).displayName = u.displayName ∧
    (stripPassword u).bio = u.bio ∧
    (stripPassword u).avatarUrl = u.avatarUrl ∧
    (stripPassword u).createdAt = u.createdAt := by
  refine ⟨?_, fun p => rfl, rfl, rfl, rfl, rfl, rfl, rfl⟩
  unfold getUserRoute
  rw [h]

/-- Witness for `get_user_route_strips_password` at a concrete store. -/
theorem get_user_route_strips_password_witness :
    getUserRoute userDB 1 = .ok 200 (stripPassword demoUser) :=
  (get_user_route_strips_password userDB 1 demoUser (by decide)).1

end OrangeWeb3
